import Mathlib

/-!
Shallow embedding of the `lsc_vm` LC-3 virtual machine (src/src/main.c).

The machine state consists of the 10-slot register file `lsc_reg`
(8 general-purpose registers, the program counter at index 8, the
condition-flags register at index 9), the 65536-cell memory
`lsc_memory`, and the `running` flag of `main`'s execution loop.
Registers and memory cells are 16-bit unsigned values, embedded as
`Nat` with an explicit `% 65536` wherever the C code truncates.
-/

/-- Condition flag `LSC_FL_POS = 1 << 0` (main.c line 84). -/
def LSC_FL_POS : Nat := 1

/-- Condition flag `LSC_FL_ZRO = 1 << 1` (main.c line 85). -/
def LSC_FL_ZRO : Nat := 2

/-- Condition flag `LSC_FL_NEG = 1 << 2` (main.c line 86). -/
def LSC_FL_NEG : Nat := 4

/-- Number of register slots, `LSC_R_COUNT` (main.c line 43). -/
def LSC_R_COUNT : Nat := 10

/-- Index of the program counter register, `LSC_R_PC` (main.c line 41). -/
def LSC_R_PC : Nat := 8

/-- Index of the condition-flags register, `LSC_R_COND` (main.c line 42). -/
def LSC_R_COND : Nat := 9

/-- Machine state: register file, memory, and `main`'s `running` flag. -/
structure LscState where
  reg : Nat → Nat
  mem : Nat → Nat
  running : Bool

/-- Store value `v` into register slot `i`. -/
def setReg (s : LscState) (i v : Nat) : LscState :=
  { s with reg := fun j => if j = i then v else s.reg j }

/-- Source function `lsc_sign_extend` (main.c lines 140-184):
`if ((x >> (bit_count - 1)) & 1) x |= (0xFFFF << bit_count); return x;`.
`x` is a `uint16_t`, so the `|=` assignment truncates to 16 bits. -/
def lsc_sign_extend (x : Nat) (bit_count : Nat) : Nat :=
  if (x >>> (bit_count - 1)) &&& 1 = 1 then
    (x ||| (0xFFFF <<< bit_count)) % 65536
  else
    x

/-- Source function `lsc_update_flags` (main.c lines 186-197), value-level behaviour.
The C function receives `LSC_REGISTER *reg` and writes through
`*reg[k]`, which denotes the element at linear offset `k * LSC_R_COUNT`
from the passed pointer, outside the 10-element register object for
every `k ≥ 1` (and `reg[r] == 0` compares a pointer, not a value); that
access pattern is modelled separately by `lsc_update_flags_value_offset`
and `lsc_update_flags_flag_offset` below.  This definition keeps the
source's branch structure over the register-wise reading (read register
`r`, write the flag slot `LSC_R_COND`): note that both the bit-15
branch and the final `else` branch store `LSC_FL_NEG`. -/
def lsc_update_flags (r : Nat) (s : LscState) : LscState :=
  if s.reg r = 0 then
    setReg s LSC_R_COND LSC_FL_ZRO
  else if s.reg r >>> 15 ≠ 0 then
    setReg s LSC_R_COND LSC_FL_NEG
  else
    setReg s LSC_R_COND LSC_FL_NEG

/-- Linear element offset, from the base pointer `reg`, of the access
`*reg[r]` in `lsc_update_flags`: `reg` has type `uint16_t (*)[10]`, so
`reg[r]` is the `r`-th whole 10-element array and `*reg[r]` its first
element, at linear offset `r * LSC_R_COUNT`. -/
def lsc_update_flags_value_offset (r : Nat) : Nat := r * LSC_R_COUNT

/-- Linear element offset of the flag store `*reg[LSC_R_COND]` in
`lsc_update_flags`, under the same pointer arithmetic. -/
def lsc_update_flags_flag_offset : Nat := LSC_R_COND * LSC_R_COUNT

/-- The `LSC_OP_ADD` case of `main`'s dispatch switch (main.c lines
243-277): decode DR, SR1 and the mode bit; operand 2 is the
sign-extended 5-bit immediate in immediate mode, else the SR2 register;
store the 16-bit wraparound sum in DR and update flags on DR. -/
def lsc_exec_add (instr : Nat) (s : LscState) : LscState :=
  let dr := (instr >>> 9) &&& 0x7
  let sr := (instr >>> 6) &&& 0x7
  let mode := (instr >>> 5) &&& 0x1
  let n2 := if mode = 1 then lsc_sign_extend (instr &&& 0x1F) 5
            else s.reg (instr &&& 0x7)
  lsc_update_flags dr (setReg s dr ((s.reg sr + n2) % 65536))

/-- The `LSC_OP_AND` case of `main`'s dispatch switch (main.c lines
278-315): like ADD but the immediate operand is `instr & 0x1F` with no
sign extension (line 300), and DR receives the bitwise AND. -/
def lsc_exec_and (instr : Nat) (s : LscState) : LscState :=
  let dr := (instr >>> 9) &&& 0x7
  let sr1 := (instr >>> 6) &&& 0x7
  let mode := (instr >>> 5) &&& 0x1
  let n2 := if mode = 1 then instr &&& 0x1F
            else s.reg (instr &&& 0x7)
  lsc_update_flags dr (setReg s dr (s.reg sr1 &&& n2))

/-- The `LSC_OP_LDI` case of `main`'s dispatch switch (main.c lines
321-351): the source masks the offset field with `0x9` (line 337) and
the destination field with `0x3` (line 340), computes
`pc_address = PC + pcoffset9` without using it (the load itself is a
`STUB`, line 345), and updates flags on the decoded `dr`. -/
def lsc_exec_ldi (instr : Nat) (s : LscState) : LscState :=
  let pcoffset9 := lsc_sign_extend (instr &&& 0x9) 9
  let dr := (instr >>> 9) &&& 0x3
  let _pc_address := (s.reg LSC_R_PC + pcoffset9) % 65536
  lsc_update_flags dr s

/-- One pass through `main`'s dispatch switch (main.c lines 242-360)
on instruction `instr`: opcode = bits 15-12; `LSC_OP_ADD = 1`,
`LSC_OP_AND = 5` and `LSC_OP_LDI = 10` have bodies, every other case
(BR, LD, ST, JSR, LDR, STR, RTI, NOT, STI, JMP, RES, LEA, TRAP and the
`default`) is an empty `break`. -/
def lsc_dispatch (instr : Nat) (s : LscState) : LscState :=
  let op := instr >>> 12
  if op = 1 then lsc_exec_add instr s
  else if op = 5 then lsc_exec_and instr s
  else if op = 10 then lsc_exec_ldi instr s
  else s

/-- One iteration of `main`'s `while (running)` loop body (main.c lines
238-241): the fetch is stubbed as `uint16_t instr = 0;` — the loop never
reads memory at the program counter and never increments it — then the
switch dispatches on `instr >> 12`. -/
def lsc_loop_body (s : LscState) : LscState :=
  lsc_dispatch 0 s

/-- Machine state at loop entry (main.c lines 221-236): the global
arrays are zero-initialized, then `lsc_reg[LSC_R_COND] = LSC_FL_ZRO`,
`lsc_reg[LSC_R_PC] = 0x3000`, and `running = 1`. -/
def lsc_init_state : LscState :=
  { reg := fun i => if i = LSC_R_COND then LSC_FL_ZRO
                    else if i = LSC_R_PC then 0x3000
                    else 0
    mem := fun _ => 0
    running := true }

/-- States reachable from the initial state by dispatch steps. -/
inductive LscReachable : LscState → Prop where
  | init : LscReachable lsc_init_state
  | step (s : LscState) (instr : Nat) :
      LscReachable s → LscReachable (lsc_dispatch instr s)

/-- The condition-flags register holds exactly one of the three flag
bits `LSC_FL_POS`, `LSC_FL_ZRO`, `LSC_FL_NEG`. -/
def lsc_flag_inv (s : LscState) : Prop :=
  s.reg LSC_R_COND = LSC_FL_POS ∨
  s.reg LSC_R_COND = LSC_FL_ZRO ∨
  s.reg LSC_R_COND = LSC_FL_NEG

/-- Claim C7: for every 16-bit value `v` and bit width `b` in [1,16], masking
`lsc_sign_extend (v % 2^b) b` back to the low `b` bits recovers exactly
the original low `b` bits of `v`. -/
theorem lsc_sign_extend_roundtrip (v b : Nat) (hv : v < 65536)
    (hb1 : 1 ≤ b) (hb2 : b ≤ 16) :
    lsc_sign_extend (v % 2 ^ b) b % 2 ^ b = v % 2 ^ b := by
  unfold lsc_sign_extend
  split
  · have h16 : (65536 : Nat) = 2 ^ 16 := by norm_num
    rw [h16, Nat.mod_mod_of_dvd _ (pow_dvd_pow 2 hb2)]
    apply Nat.eq_of_testBit_eq
    intro i
    rw [Nat.testBit_mod_two_pow, Nat.testBit_mod_two_pow,
      Nat.testBit_or, Nat.testBit_shiftLeft, Nat.testBit_mod_two_pow]
    by_cases hi : i < b
    · have hbi : ¬ b ≤ i := by omega
      simp [hi, hbi]
    · simp [hi]
  · exact Nat.mod_mod_of_dvd _ dvd_rfl

/-- Witness for C7 at `v = 0x1F`, `b = 5`. -/
theorem lsc_sign_extend_roundtrip_witness :
    lsc_sign_extend (0x1F % 2 ^ 5) 5 % 2 ^ 5 = 0x1F % 2 ^ 5 :=
  lsc_sign_extend_roundtrip 0x1F 5 (by decide) (by decide) (by decide)

/-- Reading any register slot other than the flag slot is unchanged by
the flag update. -/
lemma lsc_update_flags_reg_other (r k : Nat) (s : LscState)
    (hk : k ≠ LSC_R_COND) :
    (lsc_update_flags r s).reg k = s.reg k := by
  unfold lsc_update_flags setReg
  split
  · simp [hk]
  · split <;> simp [hk]

/-- Reading back the slot just written by `setReg`. -/
lemma setReg_reg_self (s : LscState) (i v : Nat) :
    (setReg s i v).reg i = v := by
  simp [setReg]

/-- The flag update always stores `LSC_FL_ZRO` or `LSC_FL_NEG` into the
flag slot (the source's `else` branch stores `LSC_FL_NEG`, never
`LSC_FL_POS`). -/
lemma lsc_update_flags_flag (r : Nat) (s : LscState) :
    (lsc_update_flags r s).reg LSC_R_COND = LSC_FL_ZRO ∨
    (lsc_update_flags r s).reg LSC_R_COND = LSC_FL_NEG := by
  unfold lsc_update_flags
  split
  · left; exact setReg_reg_self ..
  · split
    · right; exact setReg_reg_self ..
    · right; exact setReg_reg_self ..

/-- Any state produced by the flag update satisfies the flag invariant. -/
lemma lsc_update_flags_inv (r : Nat) (s : LscState) :
    lsc_flag_inv (lsc_update_flags r s) := by
  rcases lsc_update_flags_flag r s with h | h
  · exact Or.inr (Or.inl h)
  · exact Or.inr (Or.inr h)

/-- One dispatch step preserves the flag invariant. -/
lemma lsc_dispatch_flag_inv (s : LscState) (instr : Nat)
    (h : lsc_flag_inv s) :
    lsc_flag_inv (lsc_dispatch instr s) := by
  simp only [lsc_dispatch]
  split
  · simp only [lsc_exec_add]; exact lsc_update_flags_inv ..
  · split
    · simp only [lsc_exec_and]; exact lsc_update_flags_inv ..
    · split
      · simp only [lsc_exec_ldi]; exact lsc_update_flags_inv ..
      · exact h

/-- Claim C8: every state reachable from the initial state (flags
initialized to `LSC_FL_ZRO`) has exactly one of the three flag bits in
the condition-flags register, and every dispatch step — in particular
every flag-updating operation — preserves this invariant. -/
theorem lsc_flag_inv_reachable :
    (∀ s, LscReachable s → lsc_flag_inv s) ∧
    (∀ s instr, lsc_flag_inv s → lsc_flag_inv (lsc_dispatch instr s)) := by
  constructor
  · intro s h
    induction h with
    | init => unfold lsc_flag_inv; decide
    | step s instr _ ih => exact lsc_dispatch_flag_inv s instr ih
  · exact fun s instr h => lsc_dispatch_flag_inv s instr h

/-- Witness for C8: the state after dispatching instruction 0 from the
initial state is reachable and satisfies the flag invariant. -/
theorem lsc_flag_inv_reachable_witness :
    lsc_flag_inv (lsc_dispatch 0 lsc_init_state) :=
  lsc_flag_inv_reachable.1 (lsc_dispatch 0 lsc_init_state)
    (LscReachable.step lsc_init_state 0 LscReachable.init)

/-- Claim C6: ADD in immediate mode (instruction `i`, mode bit 1) and
ADD in register mode (instruction `j`, mode bit 0) with the same DR and
SR1 fields produce the same destination-register value whenever the
register-mode SR2 register holds the sign-extension of the immediate's
5-bit field. -/
theorem lsc_exec_add_imm_reg_agree (s : LscState) (i j : Nat)
    (hmi : (i >>> 5) &&& 1 = 1)
    (hmj : (j >>> 5) &&& 1 ≠ 1)
    (hdr : (i >>> 9) &&& 7 = (j >>> 9) &&& 7)
    (hsr : (i >>> 6) &&& 7 = (j >>> 6) &&& 7)
    (hreg : s.reg (j &&& 7) = lsc_sign_extend (i &&& 0x1F) 5) :
    (lsc_exec_add i s).reg ((i >>> 9) &&& 7) =
    (lsc_exec_add j s).reg ((j >>> 9) &&& 7) := by
  have hd9i : (i >>> 9) &&& 7 ≠ LSC_R_COND := by
    have h7 : (i >>> 9) &&& 7 ≤ 7 := Nat.and_le_right
    unfold LSC_R_COND
    omega
  have hd9j : (j >>> 9) &&& 7 ≠ LSC_R_COND := by
    have h7 : (j >>> 9) &&& 7 ≤ 7 := Nat.and_le_right
    unfold LSC_R_COND
    omega
  simp only [lsc_exec_add]
  rw [if_pos hmi, if_neg hmj,
    lsc_update_flags_reg_other _ _ _ hd9i,
    lsc_update_flags_reg_other _ _ _ hd9j,
    setReg_reg_self, setReg_reg_self, hreg, hsr]

/-- State for the C6 witness: register 3 holds `lsc_sign_extend 0x1F 5`,
the value `0xFFFF`. -/
def lsc_c6_state : LscState := setReg lsc_init_state 3 0xFFFF

/-- Witness for C6: `ADD R2, R1, #-1` (0x147F, immediate mode) and
`ADD R2, R1, R3` (0x1443, register mode) with R3 = 0xFFFF agree on R2. -/
theorem lsc_exec_add_imm_reg_agree_witness :
    (lsc_exec_add 0x147F lsc_c6_state).reg ((0x147F >>> 9) &&& 7) =
    (lsc_exec_add 0x1443 lsc_c6_state).reg ((0x1443 >>> 9) &&& 7) :=
  lsc_exec_add_imm_reg_agree lsc_c6_state 0x147F 0x1443
    (by decide) (by decide) (by decide) (by decide) (by decide)

/-- Claim C10: dispatching any 16-bit instruction whose opcode is one of
BR, LD, ST, JSR, LDR, STR, RTI, NOT, STI, JMP, RES, LEA, TRAP (all
opcodes except ADD = 1, AND = 5, LDI = 10) leaves the state — every
register, the program counter, the flags, the memory and the running
flag — unchanged: the source's cases for those opcodes are empty
`break`s. -/
theorem lsc_dispatch_noop_frame (instr : Nat) (s : LscState)
    (h16 : instr < 65536)
    (hop : (instr >>> 12) ∈ ([0, 2, 3, 4, 6, 7, 8, 9, 11, 12, 13, 14, 15] : List Nat)) :
    lsc_dispatch instr s = s := by
  simp only [lsc_dispatch]
  simp only [List.mem_cons, List.not_mem_nil, or_false] at hop
  have h1 : instr >>> 12 ≠ 1 := by omega
  have h5 : instr >>> 12 ≠ 5 := by omega
  have h10 : instr >>> 12 ≠ 10 := by omega
  rw [if_neg h1, if_neg h5, if_neg h10]

/-- Witness for C10: instruction 0x9000 (opcode 9, NOT) dispatches to
the identity. -/
theorem lsc_dispatch_noop_frame_witness :
    lsc_dispatch 0x9000 lsc_init_state = lsc_init_state :=
  lsc_dispatch_noop_frame 0x9000 lsc_init_state (by decide) (by decide)

/-- State for the C1 counterexample: register 0 holds the positive
value 1. -/
def lsc_c1_state : LscState := setReg lsc_init_state 0 1

/-- Claim C1 (code bug): with register 0 holding the positive value 1,
`lsc_update_flags 0` stores `LSC_FL_NEG` — the source's `else` branch
(main.c line 195) stores `LSC_FL_NEG`, never `LSC_FL_POS` — where the
claim requires `LSC_FL_POS`. -/
theorem lsc_update_flags_pos_is_neg :
    (lsc_update_flags 0 lsc_c1_state).reg LSC_R_COND = LSC_FL_NEG ∧
    LSC_FL_NEG ≠ LSC_FL_POS := by
  decide

/-- State for the C2 counterexample: memory holds the nonzero
instruction 0x1234 at the program counter 0x3000. -/
def lsc_c2_state : LscState :=
  { lsc_init_state with mem := fun a => if a = 0x3000 then 0x1234 else 0 }

/-- Claim C2 (code bug): the loop body fetches nothing — `instr` is the
stub constant 0, not the cell 0x1234 at the program counter — and the
program counter stays at 0x3000 instead of being incremented to
0x3001. -/
theorem lsc_loop_body_skips_fetch :
    lsc_c2_state.mem (lsc_c2_state.reg LSC_R_PC) = 0x1234 ∧
    (lsc_loop_body lsc_c2_state).reg LSC_R_PC = 0x3000 ∧
    (0x3000 : Nat) ≠ 0x3001 := by
  decide

/-- Claim C3 (code bug): dispatching the HALT trap instruction 0xF025
leaves the running flag true — the source's `LSC_OP_TRAP` case (main.c
line 356) is an empty `break` and nothing in the program ever clears
`running`. -/
theorem lsc_trap_halt_keeps_running :
    (lsc_dispatch 0xF025 lsc_init_state).running = true := by
  decide

/-- State for the C4 counterexample: register 1 holds 0xFFFF. -/
def lsc_c4_state : LscState := setReg lsc_init_state 1 0xFFFF

/-- Claim C4 (code bug): instruction 0x507F is `AND R0, R1, #-1`
(immediate mode, imm5 field 0x1F); the source takes `instr & 0x1F`
without sign extension (main.c line 300), so with R1 = 0xFFFF the code
stores 0x1F into R0, while sign-extending the operand as ADD does
(and as the claim requires) would give 0xFFFF. -/
theorem lsc_exec_and_imm_no_sign_extend :
    (lsc_dispatch 0x507F lsc_c4_state).reg 0 = 0x1F ∧
    lsc_c4_state.reg 1 &&& lsc_sign_extend (0x507F &&& 0x1F) 5 = 0xFFFF ∧
    (0x1F : Nat) ≠ 0xFFFF := by
  decide

/-- State for the C5 counterexample: memory holds the pointer 0x4242 at
the program counter 0x3000 and the value 0x7777 at 0x4242. -/
def lsc_c5_state : LscState :=
  { lsc_init_state with
    mem := fun a => if a = 0x3000 then 0x4242
                    else if a = 0x4242 then 0x7777
                    else 0 }

/-- Claim C5 (code bug): instruction 0xAE00 is `LDI R7, #0`; the claim
requires R7 = memory[memory[PC]] = 0x7777, but the source's LDI case
performs no memory access at all (the load is a `STUB`, main.c line
345), decodes the destination field with mask 0x3 instead of 0x7
(yielding 3, not 7) and the offset field with mask 0x9 instead of
0x1FF, so R7 keeps its prior value 0. -/
theorem lsc_exec_ldi_stub_no_load :
    lsc_c5_state.mem (lsc_c5_state.mem (lsc_c5_state.reg LSC_R_PC)) = 0x7777 ∧
    (lsc_dispatch 0xAE00 lsc_c5_state).reg 7 = 0 ∧
    ((0xAE00 : Nat) >>> 9) &&& 0x3 = 3 ∧
    (0 : Nat) ≠ 0x7777 := by
  decide

/-- Claim C9 (code bug): the pointer arithmetic of `lsc_update_flags`
reads the register value at linear element offset `r * 10` — already
out of the 10-element register file for `r = 1` — and stores the flag
at linear offset 90, not at the condition-flags slot 9. -/
theorem lsc_update_flags_offsets_oob :
    lsc_update_flags_value_offset 1 = 10 ∧
    ¬ lsc_update_flags_value_offset 1 < LSC_R_COUNT ∧
    lsc_update_flags_flag_offset = 90 ∧
    lsc_update_flags_flag_offset ≠ LSC_R_COND ∧
    ¬ lsc_update_flags_flag_offset < LSC_R_COUNT := by
  decide
